import Mathlib

/-!
Verification development for `nexus_blaine_watcher.py`, a single-shot
appointment watcher: fetch JSON slots → normalize/filter by date →
earliest-timestamp change detection against a persisted state file →
best-effort multi-transport notification.

The Python program is shallowly embedded below.  Calendar arithmetic follows
CPython `datetime` (proleptic Gregorian ordinals), string parsing follows
CPython `datetime.fromisoformat` (grammar of CPython ≤ 3.10, which is the
grammar the script's `Z` → `+00:00` rewrite targets), `strptime "%Y-%m-%d"`,
and `int()`.  I/O is modelled by passing the file/network/transport outcomes
in as explicit inputs and returning the attempted effects; an unhandled
Python exception is modelled as `Except.error` with a `Crash` tag.
-/

namespace NexusWatcher

/-- ASCII digit test. -/
def isDigit (c : Char) : Bool := '0' ≤ c && c ≤ '9'

/-- Digit value of an ASCII digit. -/
def digitVal (c : Char) : Nat := c.toNat - '0'.toNat

/-- A calendar date as `datetime.date`: compared field-lexicographically. -/
structure PyDate where
  year : Nat
  month : Nat
  day : Nat
deriving DecidableEq, Repr

/-- Python `date.__lt__`: lexicographic on (year, month, day). -/
def pdLt (a b : PyDate) : Bool :=
  a.year < b.year ||
    (a.year = b.year && (a.month < b.month ||
      (a.month = b.month && a.day < b.day)))

/-- Python `date.__le__`. -/
def pdLe (a b : PyDate) : Bool := pdLt a b || a == b

/-- Gregorian leap year, as `calendar.isleap` / `datetime._is_leap`. -/
def isLeap (y : Nat) : Bool := y % 4 == 0 && (y % 100 != 0 || y % 400 == 0)

/-- Days in a month, as `datetime._days_in_month`. -/
def daysInMonth (y m : Nat) : Nat :=
  if m = 2 then (if isLeap y then 29 else 28)
  else if m = 4 ∨ m = 6 ∨ m = 9 ∨ m = 11 then 30
  else 31

/-- CPython `_DAYS_BEFORE_MONTH` table (days before month `m` in a
non-leap year). -/
def daysBeforeMonthTable (m : Nat) : Nat :=
  match m with
  | 1 => 0 | 2 => 31 | 3 => 59 | 4 => 90 | 5 => 120 | 6 => 151
  | 7 => 181 | 8 => 212 | 9 => 243 | 10 => 273 | 11 => 304 | 12 => 334
  | _ => 0

/-- CPython `datetime._days_before_month`. -/
def daysBeforeMonth (y m : Nat) : Nat :=
  daysBeforeMonthTable m + (if 2 < m ∧ isLeap y then 1 else 0)

/-- CPython `datetime._days_before_year`: days before January 1st of year `y`
(year 1 has ordinal day 1). -/
def daysBeforeYear (y : Nat) : Nat :=
  (y - 1) * 365 + (y - 1) / 4 - (y - 1) / 100 + (y - 1) / 400

/-- CPython `date.toordinal()`: proleptic Gregorian ordinal. -/
def toOrdinal (y m d : Nat) : Nat := daysBeforeYear y + daysBeforeMonth y m + d

/-! ### `_parse_date` — `datetime.strptime(s, "%Y-%m-%d").date()`

CPython `_strptime` compiles `%Y` to exactly four digits, `%m` to
`1[0-2]|0[1-9]|[1-9]` and `%d` to `3[01]|[12]\d|0[1-9]|[1-9]`; the whole
string must be consumed and the `date` constructor then validates ranges
(year ≥ 1, day ≤ days in month). -/

/-- Parse exactly four digits. -/
def parse4d : List Char → Option (Nat × List Char)
  | a :: b :: c :: d :: rest =>
    if isDigit a && isDigit b && isDigit c && isDigit d then
      some (1000 * digitVal a + 100 * digitVal b + 10 * digitVal c + digitVal d, rest)
    else none
  | _ => none

/-- Parse a month per the `%m` regex `1[0-2]|0[1-9]|[1-9]`
(two-digit form preferred, one-digit fallback). -/
def parseMonth2or1 : List Char → Option (Nat × List Char)
  | a :: b :: rest =>
    if isDigit a && isDigit b &&
        ((a = '0' && '1' ≤ b) || (a = '1' && b ≤ '2')) then
      some (10 * digitVal a + digitVal b, rest)
    else if isDigit a && '1' ≤ a then some (digitVal a, b :: rest)
    else none
  | [a] => if isDigit a && '1' ≤ a then some (digitVal a, []) else none
  | [] => none

/-- Parse a day per the `%d` regex `3[01]|[12]\d|0[1-9]|[1-9]`. -/
def parseDay2or1 : List Char → Option (Nat × List Char)
  | a :: b :: rest =>
    if isDigit a && isDigit b &&
        ((a = '3' && b ≤ '1') || a = '1' || a = '2' || (a = '0' && '1' ≤ b)) then
      some (10 * digitVal a + digitVal b, rest)
    else if isDigit a && '1' ≤ a then some (digitVal a, b :: rest)
    else none
  | [a] => if isDigit a && '1' ≤ a then some (digitVal a, []) else none
  | [] => none

/-- Consume one expected character. -/
def expectChar (c : Char) : List Char → Option (List Char)
  | x :: rest => if x = c then some rest else none
  | [] => none

/-- The script's `_parse_date(s)`, i.e. `datetime.strptime(s, "%Y-%m-%d").date()`;
`none` models the `ValueError` path. -/
def parse_date (s : String) : Option PyDate :=
  match parse4d s.toList with
  | none => none
  | some (y, r1) =>
    match expectChar '-' r1 with
    | none => none
    | some r2 =>
      match parseMonth2or1 r2 with
      | none => none
      | some (m, r3) =>
        match expectChar '-' r3 with
        | none => none
        | some r4 =>
          match parseDay2or1 r4 with
          | none => none
          | some (d, r5) =>
            if r5 = [] ∧ 1 ≤ y ∧ 1 ≤ d ∧ d ≤ daysInMonth y m then
              some ⟨y, m, d⟩
            else none

/-! ### Configuration (module-level environment constants) -/

/-- The environment-derived configuration constants of the script.
`Option String` fields model `os.getenv(..., None)`; string fields model
`os.getenv(..., "")`. -/
structure Config where
  location_id : Int
  poll_limit : Int
  include_start : Option String
  include_end : Option String
  exclude_start : Option String
  exclude_end : Option String
  telegram_bot_token : String
  telegram_chat_id : String
  smtp_host : String
  smtp_port : Int
  smtp_user : String
  smtp_pass : String
  email_to : String
  twilio_sid : String
  twilio_token : String
  whatsapp_from : String
  whatsapp_to : String
deriving DecidableEq, Repr

/-- Python truthiness of an optional string (`None` and `""` are falsy). -/
def optTruthy : Option String → Bool
  | none => false
  | some s => s ≠ ""

/-- A configuration with no date filters and no transports configured. -/
def mkFilterCfg (is ie es ee : Option String) : Config :=
  ⟨5020, 20, is, ie, es, ee, "", "", "", 587, "", "", "", "", "", "", ""⟩

/-- The exclude-window half of `passes_date_filters` (lines 76-84): applied
when the include window did not return. -/
def excludePass (cfg : Config) (d : PyDate) : Bool :=
  if optTruthy cfg.exclude_start && optTruthy cfg.exclude_end then
    match parse_date (cfg.exclude_start.getD ""), parse_date (cfg.exclude_end.getD "") with
    | some s, some e =>
      let p := if pdLt e s then (e, s) else (s, e)
      !(pdLe p.1 d && pdLe d p.2)
    | _, _ => true
  else true

/-- The script's `passes_date_filters(d)` (lines 62-86): include window takes precedence;
a malformed include bound falls through (`except ValueError: pass`) to the
exclude window; a malformed exclude bound returns `True`. -/
def passes_date_filters (cfg : Config) (d : PyDate) : Bool :=
  if optTruthy cfg.include_start && optTruthy cfg.include_end then
    match parse_date (cfg.include_start.getD ""), parse_date (cfg.include_end.getD "") with
    | some s, some e =>
      let p := if pdLt e s then (e, s) else (s, e)
      pdLe p.1 d && pdLe d p.2
    | _, _ => excludePass cfg d
  else excludePass cfg d

/-! ### `parse_iso` — `datetime.fromisoformat(dt_str.replace("Z", "+00:00"))`

Timestamps are wall-clock fields plus an optional UTC offset (in
microseconds); `tz = none` models a naive `datetime`. -/

/-- A `datetime.datetime`: wall-clock fields and an optional UTC offset in
microseconds (`none` = naive). -/
structure PyDateTime where
  year : Nat
  month : Nat
  day : Nat
  hour : Nat
  minute : Nat
  second : Nat
  micro : Nat
  tz : Option Int
deriving DecidableEq, Repr

/-- The wall-clock reading in microseconds since the proleptic ordinal
epoch (day 1 = 0001-01-01), ignoring the offset. -/
def wallMicro (t : PyDateTime) : Int :=
  (toOrdinal t.year t.month t.day : Int) * 86400000000 +
    ((t.hour * 3600 + t.minute * 60 + t.second) * 1000000 + t.micro : Nat)

/-- The instant a timestamp denotes when a naive one is read as UTC
(aware: wall clock minus offset; naive: wall clock). -/
def utcInstant (t : PyDateTime) : Int := wallMicro t - t.tz.getD 0

/-- Python `datetime.__lt__`: comparing a naive and an aware datetime raises
`TypeError` (the `.error` case); otherwise instants are compared. -/
def pyLtB (a b : PyDateTime) : Except Unit Bool :=
  match a.tz, b.tz with
  | none, none => .ok (decide (wallMicro a < wallMicro b))
  | some x, some y => .ok (decide (wallMicro a - x < wallMicro b - y))
  | _, _ => .error ()

/-- Validity checks of the `datetime` constructor plus the `timezone`
24-hour bound. -/
def validDT (t : PyDateTime) : Prop :=
  1 ≤ t.year ∧ t.year ≤ 9999 ∧ 1 ≤ t.month ∧ t.month ≤ 12 ∧
    1 ≤ t.day ∧ t.day ≤ daysInMonth t.year t.month ∧
    t.hour ≤ 23 ∧ t.minute ≤ 59 ∧ t.second ≤ 59 ∧ t.micro ≤ 999999 ∧
    (∀ o, t.tz = some o → -86400000000 < o ∧ o < 86400000000)

instance (t : PyDateTime) : Decidable (validDT t) := by
  unfold validDT
  have : Decidable (∀ o, t.tz = some o → -86400000000 < o ∧ o < 86400000000) := by
    cases h : t.tz with
    | none => exact .isTrue (by intro o ho; cases ho)
    | some x =>
      exact decidable_of_iff (-86400000000 < x ∧ x < 86400000000)
        ⟨fun hx o ho => by cases ho; exact hx, fun hx => hx x rfl⟩
  exact instDecidableAnd

/-- The final constructor gate of parsing: ranges as checked by
`datetime(...)` and `timezone(...)`. -/
def mkChecked (y mo d h mi s us : Nat) (tz : Option Int) : Option PyDateTime :=
  if validDT ⟨y, mo, d, h, mi, s, us, tz⟩ then some ⟨y, mo, d, h, mi, s, us, tz⟩
  else none

/-- Parse exactly two digits. -/
def parse2d : List Char → Option (Nat × List Char)
  | a :: b :: rest =>
    if isDigit a && isDigit b then some (10 * digitVal a + digitVal b, rest)
    else none
  | _ => none

/-- The time part `HH[:MM[:SS[.fff[fff]]]]` of `_parse_isoformat_time` (CPython ≤ 3.10):
returns hour, minute, second, microsecond and the unconsumed rest (which
the caller requires to be empty or a timezone suffix). -/
def parseTimeComps (cs : List Char) : Option (Nat × Nat × Nat × Nat × List Char) :=
  match parse2d cs with
  | none => none
  | some (h, r1) =>
    match r1 with
    | ':' :: r2 =>
      match parse2d r2 with
      | none => none
      | some (mi, r3) =>
        match r3 with
        | ':' :: r4 =>
          match parse2d r4 with
          | none => none
          | some (s, r5) =>
            match r5 with
            | '.' :: r6 =>
              let ds := r6.takeWhile isDigit
              let rest := r6.drop ds.length
              let v := ds.foldl (fun acc c => acc * 10 + digitVal c) 0
              if ds.length = 3 then some (h, mi, s, v * 1000, rest)
              else if ds.length = 6 then some (h, mi, s, v, rest)
              else none
            | _ => some (h, mi, s, 0, r5)
        | _ => some (h, mi, 0, 0, r3)
    | _ => some (h, 0, 0, 0, r1)

/-- The timezone suffix after the sign: `HH:MM[:SS[.ffffff]]`
(CPython ≤ 3.10 accepts lengths 5, 8 and 15 only); returns the absolute
offset in microseconds. -/
def parseTzTail (cs : List Char) : Option Int :=
  match parse2d cs with
  | none => none
  | some (th, r1) =>
    match expectChar ':' r1 with
    | none => none
    | some r2 =>
      match parse2d r2 with
      | none => none
      | some (tm, r3) =>
        match r3 with
        | [] => some ((th * 3600 + tm * 60) * 1000000 : Nat)
        | ':' :: r4 =>
          match parse2d r4 with
          | none => none
          | some (ts, r5) =>
            match r5 with
            | [] => some ((th * 3600 + tm * 60 + ts) * 1000000 : Nat)
            | '.' :: r6 =>
              let ds := r6.takeWhile isDigit
              let rest := r6.drop ds.length
              let v := ds.foldl (fun acc c => acc * 10 + digitVal c) 0
              if ds.length = 6 ∧ rest = [] then
                some ((th * 3600 + tm * 60 + ts) * 1000000 + v : Nat)
              else none
            | _ => none
        | _ => none

/-- CPython `datetime.fromisoformat` (CPython ≤ 3.10 grammar):
`YYYY-MM-DD[<any sep>HH[:MM[:SS[.fff[fff]]]][(+|-)HH:MM[:SS[.ffffff]]]]`. -/
def pyFromIsoformat (s : String) : Option PyDateTime :=
  match parse4d s.toList with
  | none => none
  | some (y, r1) =>
    match expectChar '-' r1 with
    | none => none
    | some r2 =>
      match parse2d r2 with
      | none => none
      | some (mo, r3) =>
        match expectChar '-' r3 with
        | none => none
        | some r4 =>
          match parse2d r4 with
          | none => none
          | some (d, r5) =>
            match r5 with
            | [] => mkChecked y mo d 0 0 0 0 none
            | _sep :: r6 =>
              match parseTimeComps r6 with
              | none => none
              | some (h, mi, sec, us, r7) =>
                match r7 with
                | [] => mkChecked y mo d h mi sec us none
                | '+' :: r8 =>
                  match parseTzTail r8 with
                  | none => none
                  | some off => mkChecked y mo d h mi sec us (some off)
                | '-' :: r8 =>
                  match parseTzTail r8 with
                  | none => none
                  | some off => mkChecked y mo d h mi sec us (some (-off))
                | _ => none

/-- Python `str.replace("Z", "+00:00")` for the single-character pattern `Z`. -/
def replaceZ (s : String) : String :=
  ⟨s.toList.flatMap (fun c => if c = 'Z' then ['+', '0', '0', ':', '0', '0'] else [c])⟩

/-- The script's `parse_iso(dt_str)` (lines 56-57). -/
def parse_iso (s : String) : Option PyDateTime := pyFromIsoformat (replaceZ s)

/-- Python `datetime.date()` of a timestamp: its wall-clock fields. -/
def dtDate (t : PyDateTime) : PyDate := ⟨t.year, t.month, t.day⟩

/-- Rebuild a timestamp with a different offset, wall clock unchanged
(`datetime.replace(tzinfo=...)`). -/
def setTz (t : PyDateTime) (o : Option Int) : PyDateTime :=
  ⟨t.year, t.month, t.day, t.hour, t.minute, t.second, t.micro, o⟩

/-! ### JSON values and Python-side semantics -/

/-- A decoded JSON value (`json.loads` result).  Numbers are modelled as
integers — the payloads and state this program manipulates carry only
integral numbers. -/
inductive JVal where
  | null
  | bool (b : Bool)
  | num (n : Int)
  | str (s : String)
  | arr (xs : List JVal)
  | obj (kvs : List (String × JVal))

/-- Python truthiness of a decoded JSON value. -/
def jTruthy : JVal → Bool
  | .null => false
  | .bool b => b
  | .num n => n ≠ 0
  | .str s => s ≠ ""
  | .arr xs => !xs.isEmpty
  | .obj kvs => !kvs.isEmpty

/-- Dictionary lookup (`json.loads` never produces duplicate keys). -/
def jLookup (kvs : List (String × JVal)) (k : String) : Option JVal :=
  match kvs with
  | [] => none
  | (k0, v0) :: rest => if k0 = k then some v0 else jLookup rest k

/-- Assignment `state["last_seen_iso"] = x`: replace the key if present, else append. -/
def jSet (kvs : List (String × JVal)) (k : String) (v : JVal) :
    List (String × JVal) :=
  match kvs with
  | [] => [(k, v)]
  | (k0, v0) :: rest => if k0 = k then (k0, v) :: rest else (k0, v0) :: jSet rest k v

/-- Iteration `for s in slots`: lists iterate over elements, strings over their
characters, dicts over their keys; numbers and booleans raise `TypeError`. -/
def pyIter : JVal → Option (List JVal)
  | .arr xs => some xs
  | .str s => some (s.toList.map (fun c => .str ⟨[c]⟩))
  | .obj kvs => some (kvs.map (fun kv => .str kv.1))
  | .num _ => none
  | .bool _ => none
  | .null => none

/-! ### State file -/

/-- Outcome of reading the state file: absent, present but not decodable
as JSON, or decoded to a JSON value. -/
inductive FileRead where
  | absent
  | undecodable
  | json (v : JVal)

/-- The script's `load_state()` (lines 88-95): absent or undecodable gives `{}`. -/
def load_state : FileRead → JVal
  | .absent => .obj []
  | .undecodable => .obj []
  | .json v => v

/-- The call `state.get("last_seen_iso")` (line 163): only a dict has `.get`; any
other decoded value raises `AttributeError` (uncaught in `main`).  Returns
the dict entries and the looked-up value. -/
def stateGet (v : JVal) : Except Unit (List (String × JVal) × Option JVal) :=
  match v with
  | .obj kvs => .ok (kvs, jLookup kvs "last_seen_iso")
  | _ => .error ()

/-! ### Slot normalization and filtering (lines 172-179) -/

/-- The `try` body of lines 174-177: `s["startTimestamp"]` then
`parse_iso(...)`; every failure (`TypeError` on non-dict subscripting,
`KeyError`, non-string value, unparseable string) is caught and drops the
record.  Returns the raw key string together with its parse. -/
def recordStart (s : JVal) : Option (String × PyDateTime) :=
  match s with
  | .obj kvs =>
    match jLookup kvs "startTimestamp" with
    | some (.str v) =>
      match parse_iso v with
      | some dt => some (v, dt)
      | none => none
    | _ => none
  | _ => none

/-- One iteration of the loop of lines 172-179: keep the record when its
start parses and its date passes the filters; carries
(raw record, raw start string, parsed start). -/
def keepSlot (cfg : Config) (s : JVal) : Option (JVal × String × PyDateTime) :=
  match recordStart s with
  | some (k, dt) =>
    if passes_date_filters cfg (dtDate dt) then some (s, k, dt) else none
  | none => none

/-- Lines 172-179. -/
def filteredSlots (cfg : Config) (items : List JVal) :
    List (JVal × String × PyDateTime) :=
  items.filterMap (keepSlot cfg)

/-- Python `min(...)` over parsed start timestamps: first element is the initial
best, each later element replaces it only when strictly smaller
(`datetime.__lt__`, which can raise on naive/aware mixes). -/
def pyMinFold (best : PyDateTime) : List PyDateTime → Except Unit PyDateTime
  | [] => .ok best
  | t :: rest =>
    match pyLtB t best with
    | .error _ => .error ()
    | .ok true => pyMinFold t rest
    | .ok false => pyMinFold best rest

/-- The parsed starts of the remaining filtered slots. -/
def startsOf (l : List (JVal × String × PyDateTime)) : List PyDateTime :=
  l.map (fun p => p.2.2)

/-- Lines 187-192: parse the stored `last_seen` value inside `try`; a falsy
value, a non-string value or an unparseable string all leave it `None`. -/
def lastSeenParse : Option JVal → Option PyDateTime
  | none => none
  | some v =>
    if jTruthy v then
      match v with
      | .str s => parse_iso s
      | _ => none
    else none

/-- Line 194: `(last_seen_dt is None) or (earliest < last_seen_dt)`;
the comparison can raise `TypeError`. -/
def decideAlert (earliest : PyDateTime) : Option PyDateTime → Except Unit Bool
  | none => .ok true
  | some l => pyLtB earliest l

/-! ### Preview sorting and message rendering (lines 195-201) -/

/-- Python `str.__lt__`: code-point lexicographic. -/
def strLtChars : List Char → List Char → Bool
  | [], [] => false
  | [], _ :: _ => true
  | _ :: _, [] => false
  | a :: as, b :: bs =>
    if a.toNat < b.toNat then true
    else if a.toNat = b.toNat then strLtChars as bs
    else false

/-- Sort key of line 195: the raw `startTimestamp` string. -/
def slotKey (p : JVal × String × PyDateTime) : String := p.2.1

/-- Stable insertion: the inserted element precedes later equal keys. -/
def insKey (x : JVal × String × PyDateTime) :
    List (JVal × String × PyDateTime) → List (JVal × String × PyDateTime)
  | [] => [x]
  | y :: rest =>
    if strLtChars (slotKey y).toList (slotKey x).toList then y :: insKey x rest
    else x :: y :: rest

/-- The call `sorted(filtered, key=lambda x: x["startTimestamp"])`: any stable sort
by the key; Python's timsort and this insertion sort agree because stable
sorting by a total preorder has a unique result. -/
def sortByKey : List (JVal × String × PyDateTime) →
    List (JVal × String × PyDateTime)
  | [] => []
  | x :: rest => insKey x (sortByKey rest)

/-- Inverse of `toOrdinal`-modulo-month: find the month of a day-of-year
(`1 ≤ doy`), walking at most 11 months forward. -/
def findMonthGo (y m rem fuel : Nat) : Nat × Nat :=
  match fuel with
  | 0 => (m, rem)
  | fuel + 1 =>
    if rem ≤ daysInMonth y m then (m, rem)
    else findMonthGo y (m + 1) (rem - daysInMonth y m) fuel

/-- CPython `date.fromordinal`: proleptic ordinal to (year, month, day). -/
def ord2ymd (n : Nat) : Nat × Nat × Nat :=
  let n0 := n - 1
  let n400 := n0 / 146097
  let r1 := n0 % 146097
  let n100 := min (r1 / 36524) 3
  let r2 := r1 - n100 * 36524
  let n4 := min (r2 / 1461) 24
  let r3 := r2 - n4 * 1461
  let n1 := min (r3 / 365) 3
  let r4 := r3 - n1 * 365
  let y := 400 * n400 + 100 * n100 + 4 * n4 + n1 + 1
  let md := findMonthGo y 1 (r4 + 1) 11
  (y, md.1, md.2)

/-- Microseconds-since-epoch back to a UTC-aware datetime; `none` models
the `OverflowError`/`ValueError` when the result leaves the representable
`datetime` range (0001-01-01 … 9999-12-31). -/
def civilOfMicro (m : Int) : Option PyDateTime :=
  if m < 86400000000 ∨ (3652060 : Int) * 86400000000 ≤ m then none
  else
    let n := m.toNat
    let ord := n / 86400000000
    let rem := n % 86400000000
    let ymd := ord2ymd ord
    some ⟨ymd.1, ymd.2.1, ymd.2.2, rem / 3600000000, rem / 60000000 % 60,
      rem / 1000000 % 60, rem % 1000000, some 0⟩

/-- The call `dt.astimezone(timezone.utc)` (line 198): an aware datetime is shifted
by its own offset; a NAIVE one is interpreted as system-local time
(`localOff`, in microseconds), not as UTC. -/
def astimezoneUtc (localOff : Int) (t : PyDateTime) : Option PyDateTime :=
  civilOfMicro (wallMicro t - t.tz.getD localOff)

/-- Zero-pad a number to a given width (`strftime` field rendering). -/
def padNum (width n : Nat) : String :=
  let s := toString n
  ⟨List.replicate (width - s.length) '0' ++ s.toList⟩

/-- The call rendering a datetime with the format "%Y-%m-%d %H:%M UTC". -/
def fmtDT (t : PyDateTime) : String :=
  padNum 4 t.year ++ "-" ++ padNum 2 t.month ++ "-" ++ padNum 2 t.day ++ " " ++
    padNum 2 t.hour ++ ":" ++ padNum 2 t.minute ++ " UTC"

mutual

/-- Python `str()` of a decoded JSON value (for the duration field of the
message; `repr` is used inside containers). -/
def pyStr : JVal → String
  | .null => "None"
  | .bool b => if b then "True" else "False"
  | .num n => toString n
  | .str s => s
  | .arr xs => "[" ++ pyReprJoin xs ++ "]"
  | .obj kvs => "\x7b" ++ pyReprObjJoin kvs ++ "\x7d"

/-- Comma-joined `repr()`s of list elements. -/
def pyReprJoin : List JVal → String
  | [] => ""
  | [.str s] => "\x27" ++ s ++ "\x27"
  | [v] => pyStr v
  | .str s :: rest => "\x27" ++ s ++ "\x27" ++ ", " ++ pyReprJoin rest
  | v :: rest => pyStr v ++ ", " ++ pyReprJoin rest

/-- Comma-joined `repr()`s of dict entries. -/
def pyReprObjJoin : List (String × JVal) → String
  | [] => ""
  | [(k, .str s)] => "\x27" ++ k ++ "\x27: \x27" ++ s ++ "\x27"
  | [(k, v)] => "\x27" ++ k ++ "\x27: " ++ pyStr v
  | (k, .str s) :: rest => "\x27" ++ k ++ "\x27: \x27" ++ s ++ "\x27, " ++ pyReprObjJoin rest
  | (k, v) :: rest => "\x27" ++ k ++ "\x27: " ++ pyStr v ++ ", " ++ pyReprObjJoin rest

end

/-- The duration lookup with default "N/A" rendered into the f-string. -/
def durStr (s : JVal) : String :=
  match s with
  | .obj kvs =>
    match jLookup kvs "duration" with
    | some v => pyStr v
    | none => "N/A"
  | _ => "N/A"

/-- Map returning `none` on the first failure (the message-building loop
stops at the first raised exception). -/
def optMapM (f : α → Option β) : List α → Option (List β)
  | [] => some []
  | x :: rest =>
    match f x with
    | none => none
    | some y =>
      match optMapM f rest with
      | none => none
      | some ys => some (y :: ys)

/-- The fixed booking link printed at the end of the message (line 54). -/
def schedulerUiLine : String :=
  "Book now (log in required): https://ttp.cbp.dhs.gov/schedulerui/schedule-interview/location?service=NH&vo=true"

/-- One preview line of the message (line 199); `none` models the uncaught
`astimezone` failure. -/
def renderLine (localOff : Int) (p : JVal × String × PyDateTime) : Option String :=
  match astimezoneUtc localOff p.2.2 with
  | none => none
  | some u => some ("• " ++ fmtDT u ++ "  (duration " ++ durStr p.1 ++ " min)")

/-- Lines 195-201: sort by raw start string, take 5, render each line, join
with newlines between header and booking link. -/
def buildMessage (localOff : Int) (f : List (JVal × String × PyDateTime)) :
    Option String :=
  match optMapM (renderLine localOff) ((sortByKey f).take 5) with
  | none => none
  | some lines =>
    some (String.intercalate "\n"
      ("New NEXUS appointment(s) at Blaine (date-filtered):" :: lines ++ [schedulerUiLine]))

/-- Line 203: `earliest.replace(tzinfo=timezone.utc).isoformat().replace("+00:00", "Z")`
— the wall clock rendered in ISO form with a `Z` suffix, the original
offset discarded. -/
def stateStamp (t : PyDateTime) : String :=
  padNum 4 t.year ++ "-" ++ padNum 2 t.month ++ "-" ++ padNum 2 t.day ++ "T" ++
    padNum 2 t.hour ++ ":" ++ padNum 2 t.minute ++ ":" ++ padNum 2 t.second ++
    (if t.micro = 0 then "" else "." ++ padNum 6 t.micro) ++ "Z"

/-! ### Notifier (lines 111-159) -/

/-- The three optional transports. -/
inductive Transport where
  | whatsapp
  | telegram
  | email
deriving DecidableEq, Repr

/-- Outcomes of the external transport calls: `none` means the send
succeeded, `some e` that it raised an exception rendered as `e`. -/
structure World where
  waErr : Option String
  tgErr : Option String
  emErr : Option String

/-- The observable effects of one `notify` call. -/
structure NotifyTrace where
  attempts : List Transport
  sent : Bool
  stdout : List String
  stderr : List String

/-- Line 115: all four Twilio/WhatsApp settings must be truthy. -/
def twilioConfigured (cfg : Config) : Bool :=
  cfg.twilio_sid ≠ "" && cfg.twilio_token ≠ "" &&
    cfg.whatsapp_from ≠ "" && cfg.whatsapp_to ≠ ""

/-- Line 126: bot token and chat id must be truthy. -/
def telegramConfigured (cfg : Config) : Bool :=
  cfg.telegram_bot_token ≠ "" && cfg.telegram_chat_id ≠ ""

/-- Line 142: host, user, password and recipient must be truthy
(the port is not part of the guard). -/
def emailConfigured (cfg : Config) : Bool :=
  cfg.smtp_host ≠ "" && cfg.smtp_user ≠ "" && cfg.smtp_pass ≠ "" &&
    cfg.email_to ≠ ""

/-- The script's `notify(message)` (lines 111-159): three independent best-effort
blocks, each wrapped in its own `try`, then an unconditional
`print(message)` and, if nothing was sent, an info line. -/
def notify (cfg : Config) (w : World) (message : String) : NotifyTrace :=
  let wa : List Transport × Bool × List String × List String :=
    if twilioConfigured cfg then
      match w.waErr with
      | none => ([.whatsapp], true, ["[ok] WhatsApp notification sent via Twilio."], [])
      | some e => ([.whatsapp], false, [], ["[warn] WhatsApp send failed: " ++ e])
    else ([], false, [], [])
  let tg : List Transport × Bool × List String × List String :=
    if telegramConfigured cfg then
      match w.tgErr with
      | none => ([.telegram], true, ["[ok] Telegram notification sent."], [])
      | some e => ([.telegram], false, [], ["[warn] Telegram send failed: " ++ e])
    else ([], false, [], [])
  let em : List Transport × Bool × List String × List String :=
    if emailConfigured cfg then
      match w.emErr with
      | none => ([.email], true, ["[ok] Email notification sent."], [])
      | some e => ([.email], false, [], ["[warn] Email send failed: " ++ e])
    else ([], false, [], [])
  let sent := wa.2.1 || tg.2.1 || em.2.1
  { attempts := wa.1 ++ tg.1 ++ em.1
    sent := sent
    stdout := wa.2.2.1 ++ tg.2.2.1 ++ em.2.2.1 ++ [message] ++
      (if sent then [] else ["[info] no notifier configured; message printed only."])
    stderr := wa.2.2.2 ++ tg.2.2.2 ++ em.2.2.2 }

/-! ### Orchestrator — `main()` (lines 161-208) -/

/-- The uncaught exceptions `main` can die of. -/
inductive Crash where
  | configInt
  | stateGetAttr
  | slotsNotIterable
  | compareMixed
  | astimezoneRange
deriving DecidableEq, Repr

/-- The inputs of one run that come from the outside world. -/
structure RunInput where
  stateRead : FileRead
  fetch : Except String JVal
  world : World
  localOff : Int

/-- The observable outcome of a completed run.  `savedState` is the JSON
value handed to `save_state` (`none` when no write was attempted; the
write itself is best-effort). -/
structure RunResult where
  exitCode : Nat
  notified : Bool
  savedState : Option JVal
  stdout : List String
  stderr : List String

/-- The script's `main()` (lines 161-208), with unhandled exceptions surfaced as
`.error`. -/
def runMain (cfg : Config) (inp : RunInput) : Except Crash RunResult :=
  match stateGet (load_state inp.stateRead) with
  | .error _ => .error .stateGetAttr
  | .ok (kvs, lastSeenVal) =>
    match inp.fetch with
    | .error e =>
      .ok ⟨1, false, none, [], ["[error] fetch failed: " ++ e]⟩
    | .ok payload =>
      match pyIter (if jTruthy payload then payload else .arr []) with
      | none => .error .slotsNotIterable
      | some items =>
        match filteredSlots cfg items with
        | [] =>
          .ok ⟨0, false, none,
            ["[info] no qualifying slots found after date filters."], []⟩
        | f0 :: frest =>
          match pyMinFold f0.2.2 (startsOf frest) with
          | .error _ => .error .compareMixed
          | .ok earliest =>
            match decideAlert earliest (lastSeenParse lastSeenVal) with
            | .error _ => .error .compareMixed
            | .ok false =>
              .ok ⟨0, false, none,
                ["[info] earliest qualifying slot is not newer than last seen; no alert."], []⟩
            | .ok true =>
              match buildMessage inp.localOff (f0 :: frest) with
              | none => .error .astimezoneRange
              | some msg =>
                .ok ⟨0, true,
                  some (.obj (jSet kvs "last_seen_iso" (.str (stateStamp earliest)))),
                  (notify cfg inp.world msg).stdout, (notify cfg inp.world msg).stderr⟩

/-! ### Module start-up (lines 23-50): `int(os.getenv(...))` -/

/-- The raw environment (`None` = variable unset). -/
structure Env where
  location_id : Option String
  poll_limit : Option String
  include_start : Option String
  include_end : Option String
  exclude_start : Option String
  exclude_end : Option String
  telegram_bot_token : Option String
  telegram_chat_id : Option String
  smtp_host : Option String
  smtp_port : Option String
  smtp_user : Option String
  smtp_pass : Option String
  email_to : Option String
  twilio_sid : Option String
  twilio_token : Option String
  whatsapp_from : Option String
  whatsapp_to : Option String

/-- ASCII whitespace stripped by `int()`. -/
def isSpaceC (c : Char) : Bool :=
  c = ' ' || c = '\t' || c = '\n' || c = '\x0d' || c = '\x0b' || c = '\x0c'

/-- Digit string with optional single underscores between digits. -/
def digitsUS (acc : Nat) : List Char → Option Nat
  | [] => some acc
  | '_' :: c :: rest =>
    if isDigit c then digitsUS (acc * 10 + digitVal c) rest else none
  | c :: rest =>
    if isDigit c then digitsUS (acc * 10 + digitVal c) rest else none

/-- Python `int(s)`: strip whitespace, optional sign, then digits with
optional underscores between them; `none` models `ValueError`. -/
def pyInt (s : String) : Option Int :=
  let cs := (((s.toList.dropWhile isSpaceC).reverse.dropWhile isSpaceC).reverse)
  let core : Option (Bool × List Char) :=
    match cs with
    | '+' :: rest => some (false, rest)
    | '-' :: rest => some (true, rest)
    | rest => some (false, rest)
  match core with
  | some (neg, c :: rest) =>
    if isDigit c then
      match digitsUS (digitVal c) rest with
      | some n => some (if neg then -(n : Int) else (n : Int))
      | none => none
    else none
  | _ => none

/-- Lines 23-50: build the configuration; any `int()` failure is an
uncaught `ValueError` at import time. -/
def startup (env : Env) : Option Config :=
  match pyInt (env.location_id.getD "5020"), pyInt (env.poll_limit.getD "20"),
      pyInt (env.smtp_port.getD "587") with
  | some loc, some lim, some port =>
    some ⟨loc, lim, env.include_start, env.include_end, env.exclude_start,
      env.exclude_end, env.telegram_bot_token.getD "", env.telegram_chat_id.getD "",
      env.smtp_host.getD "", port, env.smtp_user.getD "", env.smtp_pass.getD "",
      env.email_to.getD "", env.twilio_sid.getD "", env.twilio_token.getD "",
      env.whatsapp_from.getD "", env.whatsapp_to.getD ""⟩
  | _, _, _ => none

/-- The whole process: module start-up then `main()`. -/
def runProgram (env : Env) (inp : RunInput) : Except Crash RunResult :=
  match startup env with
  | none => .error .configInt
  | some cfg => runMain cfg inp

/-! ### Order facts about `date` comparison -/

/-- Normalized lower bound, as the swap on line 71-72 computes it. -/
def pdMin (a b : PyDate) : PyDate := if pdLt b a then b else a

/-- Normalized upper bound. -/
def pdMax (a b : PyDate) : PyDate := if pdLt b a then a else b

theorem pdLt_asymm {a b : PyDate} (h : pdLt a b = true) : pdLt b a = false := by
  cases a; cases b
  simp [pdLt] at h ⊢
  omega

theorem pdLt_conn {a b : PyDate} (h1 : pdLt a b = false) (h2 : pdLt b a = false) :
    a = b := by
  cases a; cases b
  simp [pdLt] at h1 h2
  simp [PyDate.mk.injEq]
  omega

theorem pdMin_comm (a b : PyDate) : pdMin a b = pdMin b a := by
  unfold pdMin
  cases h1 : pdLt b a <;> cases h2 : pdLt a b <;> simp
  · exact pdLt_conn h2 h1
  · exact absurd (pdLt_asymm h2) (by simp [h1])

theorem pdMax_comm (a b : PyDate) : pdMax a b = pdMax b a := by
  unfold pdMax
  cases h1 : pdLt b a <;> cases h2 : pdLt a b <;> simp
  · exact pdLt_conn h1 h2
  · exact absurd (pdLt_asymm h2) (by simp [h1])

theorem pdLe_min_max (a b : PyDate) : pdLe (pdMin a b) (pdMax a b) = true := by
  unfold pdMin pdMax pdLe
  cases h : pdLt b a <;> simp [h]
  cases h2 : pdLt a b <;> simp
  exact pdLt_conn h2 h

/-- The configuration with the two include bounds exchanged. -/
def swapInclude (c : Config) : Config :=
  ⟨c.location_id, c.poll_limit, c.include_end, c.include_start, c.exclude_start,
    c.exclude_end, c.telegram_bot_token, c.telegram_chat_id, c.smtp_host,
    c.smtp_port, c.smtp_user, c.smtp_pass, c.email_to, c.twilio_sid,
    c.twilio_token, c.whatsapp_from, c.whatsapp_to⟩

/-- The configuration with the exclude bounds replaced. -/
def setExclude (c : Config) (es ee : Option String) : Config :=
  ⟨c.location_id, c.poll_limit, c.include_start, c.include_end, es, ee,
    c.telegram_bot_token, c.telegram_chat_id, c.smtp_host, c.smtp_port,
    c.smtp_user, c.smtp_pass, c.email_to, c.twilio_sid, c.twilio_token,
    c.whatsapp_from, c.whatsapp_to⟩

theorem passes_include_eval (c : Config) (d : PyDate) (istr estr : String)
    (s0 e0 : PyDate) (h1 : c.include_start = some istr) (h2 : istr ≠ "")
    (h3 : c.include_end = some estr) (h4 : estr ≠ "")
    (h5 : parse_date istr = some s0) (h6 : parse_date estr = some e0) :
    passes_date_filters c d = (pdLe (pdMin s0 e0) d && pdLe d (pdMax s0 e0)) := by
  unfold passes_date_filters
  rw [h1, h3]
  simp only [optTruthy, Option.getD_some, h5, h6]
  rw [if_pos (by simp [h2, h4])]
  unfold pdMin pdMax
  cases h : pdLt e0 s0 <;> simp [h]

/-- C3 (confirmed): with both include bounds set and parseable, the filter
is exactly the normalized inclusive range check; swapping the configured
bounds gives the same verdict; the exclude bounds are ignored. -/
theorem C3_include_window (cfg : Config) (d : PyDate) (istr estr : String)
    (s0 e0 : PyDate) (h1 : cfg.include_start = some istr) (h2 : istr ≠ "")
    (h3 : cfg.include_end = some estr) (h4 : estr ≠ "")
    (h5 : parse_date istr = some s0) (h6 : parse_date estr = some e0) :
    passes_date_filters cfg d = (pdLe (pdMin s0 e0) d && pdLe d (pdMax s0 e0)) ∧
    pdLe (pdMin s0 e0) (pdMax s0 e0) = true ∧
    passes_date_filters (swapInclude cfg) d = passes_date_filters cfg d ∧
    (∀ es ee, passes_date_filters (setExclude cfg es ee) d = passes_date_filters cfg d) := by
  have base := passes_include_eval cfg d istr estr s0 e0 h1 h2 h3 h4 h5 h6
  refine ⟨base, pdLe_min_max s0 e0, ?_, ?_⟩
  · have swapped := passes_include_eval (swapInclude cfg) d estr istr e0 s0
      (by simp [swapInclude, h3]) h4 (by simp [swapInclude, h1]) h2 h6 h5
    rw [swapped, base, pdMin_comm e0 s0, pdMax_comm e0 s0]
  · intro es ee
    have ex := passes_include_eval (setExclude cfg es ee) d istr estr s0 e0
      (by simp [setExclude, h1]) h2 (by simp [setExclude, h3]) h4 h5 h6
    rw [ex, base]

/-- C3 witness: the include window [2026-02-01, 2026-02-28] (also configured
in swapped order) admits 2026-02-10, ignoring any exclusion. -/
theorem C3_include_window_witness :
    passes_date_filters (mkFilterCfg (some "2026-02-01") (some "2026-02-28") none none)
        ⟨2026, 2, 10⟩ =
      (pdLe (pdMin ⟨2026, 2, 1⟩ ⟨2026, 2, 28⟩) ⟨2026, 2, 10⟩ &&
        pdLe ⟨2026, 2, 10⟩ (pdMax ⟨2026, 2, 1⟩ ⟨2026, 2, 28⟩)) ∧
    pdLe (pdMin ⟨2026, 2, 1⟩ ⟨2026, 2, 28⟩) (pdMax ⟨2026, 2, 1⟩ ⟨2026, 2, 28⟩) = true ∧
    passes_date_filters (swapInclude (mkFilterCfg (some "2026-02-01") (some "2026-02-28") none none))
        ⟨2026, 2, 10⟩ =
      passes_date_filters (mkFilterCfg (some "2026-02-01") (some "2026-02-28") none none)
        ⟨2026, 2, 10⟩ ∧
    (∀ es ee, passes_date_filters
        (setExclude (mkFilterCfg (some "2026-02-01") (some "2026-02-28") none none) es ee)
        ⟨2026, 2, 10⟩ =
      passes_date_filters (mkFilterCfg (some "2026-02-01") (some "2026-02-28") none none)
        ⟨2026, 2, 10⟩) :=
  C3_include_window _ ⟨2026, 2, 10⟩ "2026-02-01" "2026-02-28" ⟨2026, 2, 1⟩ ⟨2026, 2, 28⟩
    rfl (by decide) rfl (by decide) (by decide) (by decide)

/-- C4 counterexample: with a malformed include bound configured alongside a
valid exclude window, dates inside the exclude window do NOT qualify — the
claim that any malformed bound makes all dates qualify is false. -/
theorem C4_counterexample :
    parse_date "garbage" = none ∧
    optTruthy (mkFilterCfg (some "garbage") (some "2026-01-01")
        (some "2026-01-01") (some "2026-12-31")).include_start = true ∧
    passes_date_filters
      (mkFilterCfg (some "garbage") (some "2026-01-01")
        (some "2026-01-01") (some "2026-12-31")) ⟨2026, 6, 1⟩ = false := by
  refine ⟨by decide, by decide, by decide⟩

/-- C4 (amended): a malformed bound disables only its own mode and never
raises: a malformed include bound makes the filter fall through to the
exclude window, and a malformed exclude bound makes the exclude window
admit every date. -/
theorem C4_malformed_bounds (cfg : Config) (d : PyDate) :
    (optTruthy cfg.include_start = true → optTruthy cfg.include_end = true →
      (parse_date (cfg.include_start.getD "") = none ∨
        parse_date (cfg.include_end.getD "") = none) →
      passes_date_filters cfg d = excludePass cfg d) ∧
    (optTruthy cfg.exclude_start = true → optTruthy cfg.exclude_end = true →
      (parse_date (cfg.exclude_start.getD "") = none ∨
        parse_date (cfg.exclude_end.getD "") = none) →
      excludePass cfg d = true) := by
  constructor
  · intro hi1 hi2 hbad
    unfold passes_date_filters
    rw [if_pos (by simp [hi1, hi2])]
    rcases hbad with hb | hb <;>
      cases hs : parse_date (cfg.include_start.getD "") <;>
      cases he : parse_date (cfg.include_end.getD "") <;>
      simp_all
  · intro he1 he2 hbad
    unfold excludePass
    rw [if_pos (by simp [he1, he2])]
    rcases hbad with hb | hb <;>
      cases hs : parse_date (cfg.exclude_start.getD "") <;>
      cases he : parse_date (cfg.exclude_end.getD "") <;>
      simp_all

/-- C4 witness: a malformed include bound falls through to the exclude
window, and a malformed exclude bound admits every date. -/
theorem C4_malformed_bounds_witness :
    passes_date_filters (mkFilterCfg (some "garbage") (some "2026-01-01")
        (some "2026-01-01") (some "2026-12-31")) ⟨2026, 6, 1⟩ =
      excludePass (mkFilterCfg (some "garbage") (some "2026-01-01")
        (some "2026-01-01") (some "2026-12-31")) ⟨2026, 6, 1⟩ ∧
    excludePass (mkFilterCfg none none (some "junk") (some "2026-12-31"))
      ⟨2026, 6, 1⟩ = true :=
  ⟨(C4_malformed_bounds _ ⟨2026, 6, 1⟩).1 (by decide) (by decide) (.inl (by decide)),
   (C4_malformed_bounds _ ⟨2026, 6, 1⟩).2 (by decide) (by decide) (.inl (by decide))⟩

/-! ### Shared run-level inversion lemmas -/

/-- A configuration with no filters and no transports. -/
def cfgNone : Config := mkFilterCfg none none none none

/-- All transport sends succeed. -/
def worldOk : World := ⟨none, none, none⟩

/-- A configuration with all three transports configured. -/
def cfgAllTransports : Config :=
  ⟨5020, 20, none, none, none, none, "bot", "chat", "smtp.example", 587,
    "user", "pass", "to@example.org", "sid", "tok", "whatsapp:+1", "whatsapp:+2"⟩

/-- Observer: did a completed run report notified-implies-exit-0? -/
def notifySuccessExit : Except Crash RunResult → Bool
  | .error _ => true
  | .ok r => !r.notified || r.exitCode == 0

/-- Observer: the `notified` flag of a completed run. -/
def runNotified : Except Crash RunResult → Option Bool
  | .error _ => none
  | .ok r => some r.notified

/-- Every completed run satisfies: state was saved iff a notification was
triggered, a notifying run exits 0, and the exit status is 0 or 1. -/
theorem runMain_ok_shape (cfg : Config) (inp : RunInput) (r : RunResult)
    (h : runMain cfg inp = .ok r) :
    r.savedState.isSome = r.notified ∧ (r.notified = true → r.exitCode = 0) ∧
      (r.exitCode = 0 ∨ r.exitCode = 1) := by
  unfold runMain at h
  repeat' split at h
  all_goals cases h
  all_goals simp

/-- Inversion of a run that triggered a notification: recover the state
dict, the fetched payload, the filtered slots, the computed minimum and the
message, and the exact result. -/
theorem runMain_notified_inversion (cfg : Config) (inp : RunInput) (r : RunResult)
    (h : runMain cfg inp = .ok r) (hn : r.notified = true) :
    ∃ kvs lsv payload items f0 frest e msg,
      stateGet (load_state inp.stateRead) = .ok (kvs, lsv) ∧
      inp.fetch = .ok payload ∧
      pyIter (if jTruthy payload then payload else .arr []) = some items ∧
      filteredSlots cfg items = f0 :: frest ∧
      pyMinFold f0.2.2 (startsOf frest) = .ok e ∧
      decideAlert e (lastSeenParse lsv) = .ok true ∧
      buildMessage inp.localOff (f0 :: frest) = some msg ∧
      r = ⟨0, true, some (.obj (jSet kvs "last_seen_iso" (.str (stateStamp e)))),
            (notify cfg inp.world msg).stdout, (notify cfg inp.world msg).stderr⟩ := by
  unfold runMain at h
  repeat' split at h
  all_goals cases h
  all_goals simp at hn
  rename_i a1 kvs lsv hst a2 payload hf a3 items hit a4 f0 frest hfs a5 e hmin
    a6 hda a7 msg hbm
  exact ⟨kvs, lsv, payload, items, f0, frest, e, msg, hst, hf, hit, hfs, hmin,
    hda, hbm, rfl⟩

/-! ### C9 / C10 — the notifier -/

/-- C9 (confirmed): every configured transport is attempted exactly once,
the attempt set does not depend on transport outcomes, a failing transport
is logged without suppressing the message, zero configured transports still
print the message, and a notifying run exits 0. -/
theorem C9_notifier_independent :
    (∀ cfg w m,
      (notify cfg w m).attempts.count Transport.whatsapp =
        (if twilioConfigured cfg then 1 else 0) ∧
      (notify cfg w m).attempts.count Transport.telegram =
        (if telegramConfigured cfg then 1 else 0) ∧
      (notify cfg w m).attempts.count Transport.email =
        (if emailConfigured cfg then 1 else 0)) ∧
    (∀ cfg w w2 m, (notify cfg w m).attempts = (notify cfg w2 m).attempts) ∧
    (∀ cfg w m e, twilioConfigured cfg = true → w.waErr = some e →
      ("[warn] WhatsApp send failed: " ++ e) ∈ (notify cfg w m).stderr ∧
        m ∈ (notify cfg w m).stdout) ∧
    (∀ cfg w m, twilioConfigured cfg = false → telegramConfigured cfg = false →
      emailConfigured cfg = false →
      (notify cfg w m).stdout =
          [m, "[info] no notifier configured; message printed only."] ∧
        (notify cfg w m).sent = false) ∧
    (∀ cfg inp, notifySuccessExit (runMain cfg inp) = true) := by
  refine ⟨?_, ?_, ?_, ?_, ?_⟩
  · intro cfg w m
    unfold notify
    rcases w.waErr with _ | e1 <;> rcases w.tgErr with _ | e2 <;>
      rcases w.emErr with _ | e3 <;>
      cases h1 : twilioConfigured cfg <;> cases h2 : telegramConfigured cfg <;>
      cases h3 : emailConfigured cfg <;> simp
  · intro cfg w w2 m
    unfold notify
    rcases w.waErr with _ | e1 <;> rcases w.tgErr with _ | e2 <;>
      rcases w.emErr with _ | e3 <;>
      rcases w2.waErr with _ | e4 <;> rcases w2.tgErr with _ | e5 <;>
      rcases w2.emErr with _ | e6 <;>
      cases h1 : twilioConfigured cfg <;> cases h2 : telegramConfigured cfg <;>
      cases h3 : emailConfigured cfg <;> simp
  · intro cfg w m e h1 he
    unfold notify
    rw [he, if_pos h1]
    rcases w.tgErr with _ | e2 <;> rcases w.emErr with _ | e3 <;>
      cases h2 : telegramConfigured cfg <;> cases h3 : emailConfigured cfg <;> simp
  · intro cfg w m h1 h2 h3
    unfold notify
    rw [if_neg (by simp [h1]), if_neg (by simp [h2]), if_neg (by simp [h3])]
    simp
  · intro cfg inp
    cases hr : runMain cfg inp with
    | error c => rfl
    | ok r =>
      have hs := runMain_ok_shape cfg inp r hr
      unfold notifySuccessExit
      cases hn : r.notified with
      | false => simp [hn]
      | true => simp [hn, hs.2.1 hn]

/-- C9 witness: a failing WhatsApp send is logged, the message still
reaches stdout; a transportless configuration prints the message and the
fallback info line. -/
theorem C9_notifier_independent_witness :
    (("[warn] WhatsApp send failed: boom" ∈
        (notify cfgAllTransports ⟨some "boom", none, none⟩ "MSG").stderr ∧
      "MSG" ∈ (notify cfgAllTransports ⟨some "boom", none, none⟩ "MSG").stdout) ∧
    ((notify cfgNone worldOk "MSG").stdout =
        ["MSG", "[info] no notifier configured; message printed only."] ∧
      (notify cfgNone worldOk "MSG").sent = false)) :=
  ⟨C9_notifier_independent.2.2.1 cfgAllTransports ⟨some "boom", none, none⟩ "MSG" "boom"
      (by decide) rfl,
   C9_notifier_independent.2.2.2.1 cfgNone worldOk "MSG" (by decide) (by decide) (by decide)⟩

/-- C10 (confirmed): `notify` always prints the full message to stdout —
also when transports were configured and succeeded, so the stdout copy is
not only a zero-transport fallback. -/
theorem C10_stdout_unconditional :
    (∀ cfg w m, m ∈ (notify cfg w m).stdout) ∧
    (notify cfgAllTransports worldOk "MSG").sent = true ∧
    (notify cfgAllTransports worldOk "MSG").stdout =
      ["[ok] WhatsApp notification sent via Twilio.",
        "[ok] Telegram notification sent.", "[ok] Email notification sent.",
        "MSG"] := by
  refine ⟨?_, rfl, rfl⟩
  intro cfg w m
  unfold notify
  rcases w.waErr with _ | e1 <;> rcases w.tgErr with _ | e2 <;>
    rcases w.emErr with _ | e3 <;>
    cases h1 : twilioConfigured cfg <;> cases h2 : telegramConfigured cfg <;>
    cases h3 : emailConfigured cfg <;> simp

/-! ### Counterexample inputs and observers -/

/-- Observer: the exit code of a completed run. -/
def runExit : Except Crash RunResult → Option Nat
  | .error _ => none
  | .ok r => some r.exitCode

/-- Is the first parsed timestamp strictly earlier (naive read as UTC)? -/
def ltUtcOpt : Option PyDateTime → Option PyDateTime → Bool
  | some a, some b => decide (utcInstant a < utcInstant b)
  | _, _ => false

/-- An environment whose `LOCATION_ID` is not a number. -/
def envLocBad : Env :=
  ⟨some "abc", none, none, none, none, none, none, none, none, none, none,
    none, none, none, none, none, none⟩

/-- C1 counterexample: a run with one qualifying slot whose minimum start,
read as UTC, is strictly earlier than the stored timestamp, yet no
notification is sent — the run dies comparing the naive minimum with the
aware stored value. -/
theorem C1_counterexample :
    runMain cfgNone
      ⟨.json (.obj [("last_seen_iso", .str "2026-02-10T15:00:00Z")]),
        .ok (.arr [.obj [("startTimestamp", .str "2026-02-05T09:00:00")]]),
        worldOk, 0⟩ = .error .compareMixed ∧
    ltUtcOpt (parse_iso "2026-02-05T09:00:00")
      (parse_iso "2026-02-10T15:00:00Z") = true ∧
    (filteredSlots cfgNone
      [.obj [("startTimestamp", .str "2026-02-05T09:00:00")]]).isEmpty = false :=
  ⟨rfl, by decide, by decide⟩

/-- C2 counterexample: a run whose fetched payload is empty but whose state
file decodes to a JSON array crashes with `AttributeError` (non-zero exit)
instead of exiting with status 0. -/
theorem C2_counterexample :
    runMain cfgNone ⟨.json (.arr [.num 0]), .ok (.arr []), worldOk, 0⟩ =
      .error .stateGetAttr ∧
    runExit (runMain cfgNone ⟨.absent, .ok (.arr []), worldOk, 0⟩) = some 0 :=
  ⟨rfl, rfl⟩

/-- C5 counterexample: a non-numeric `LOCATION_ID` raises an uncaught
`ValueError` at import time — not every input yields a deliberate exit
status.  A second escape with well-formed configuration: one aware
`+01:00` slot at `0001-01-01T00:30` crashes uncaught in `astimezone`
during message rendering (CPython `OverflowError` at line 198), with no
naive/aware mixing anywhere. -/
theorem C5_counterexample :
    runProgram envLocBad ⟨.absent, .ok (.arr []), worldOk, 0⟩ =
      .error .configInt ∧
    pyInt "abc" = none ∧
    runMain cfgNone ⟨.absent,
      .ok (.arr [.obj [("startTimestamp", .str "0001-01-01T00:30:00+01:00")]]),
      worldOk, 0⟩ = .error .astimezoneRange :=
  ⟨rfl, by decide, rfl⟩

/-- C6 counterexample: a naive timestamp is NOT treated as UTC in the
comparison with the stored last-seen value: the naive form crashes with
`TypeError` while the explicit `+00:00` form of the same instant notifies. -/
theorem C6_counterexample :
    runMain cfgNone
      ⟨.json (.obj [("last_seen_iso", .str "2026-03-05T12:00:00Z")]),
        .ok (.arr [.obj [("startTimestamp", .str "2026-03-01T10:00:00")]]),
        worldOk, 0⟩ = .error .compareMixed ∧
    runNotified (runMain cfgNone
      ⟨.json (.obj [("last_seen_iso", .str "2026-03-05T12:00:00Z")]),
        .ok (.arr [.obj [("startTimestamp", .str "2026-03-01T10:00:00+00:00")]]),
        worldOk, 0⟩) = some true :=
  ⟨rfl, rfl⟩

/-- C7 counterexample: a record carrying its start under the claimed
fallback keys `start` and `startTime` (but not `startTimestamp`) is
dropped, and the run does not notify; the same record under
`startTimestamp` notifies. -/
theorem C7_counterexample :
    recordStart (.obj [("start", .str "2026-02-10T15:00:00Z"),
      ("startTime", .str "2026-02-10T15:00:00Z")]) = none ∧
    runNotified (runMain cfgNone
      ⟨.absent, .ok (.arr [.obj [("start", .str "2026-02-10T15:00:00Z"),
        ("startTime", .str "2026-02-10T15:00:00Z")]]), worldOk, 0⟩) = some false ∧
    runNotified (runMain cfgNone
      ⟨.absent, .ok (.arr [.obj [("startTimestamp", .str "2026-02-10T15:00:00Z")]]),
        worldOk, 0⟩) = some true :=
  ⟨rfl, rfl, rfl⟩

/-- C8 counterexample: a truthy non-array JSON body is not replaced by an
empty sequence — a numeric payload crashes the run with `TypeError`,
unlike the genuinely empty payload which exits 0. -/
theorem C8_counterexample :
    runMain cfgNone ⟨.absent, .ok (.num 5), worldOk, 0⟩ =
      .error .slotsNotIterable ∧
    runExit (runMain cfgNone ⟨.absent, .ok (.arr []), worldOk, 0⟩) = some 0 ∧
    runNotified (runMain cfgNone ⟨.absent, .ok (.arr []), worldOk, 0⟩) = some false :=
  ⟨rfl, rfl, rfl⟩

/-! ### Comparison and minimum lemmas -/

theorem pyLtB_ok {a b : PyDateTime} {c : Bool} (h : pyLtB a b = .ok c) :
    c = decide (utcInstant a < utcInstant b) := by
  cases ha : a.tz <;> cases hb : b.tz <;>
    simp [pyLtB, ha, hb] at h <;> simp [utcInstant, ha, hb, ← h]

/-- A successful fold is a member of the inputs and minimal for the
instant order (naive timestamps read as UTC). -/
theorem pyMinFold_ok_min :
    ∀ (l : List PyDateTime) (b e : PyDateTime), pyMinFold b l = .ok e →
      (e = b ∨ e ∈ l) ∧ utcInstant e ≤ utcInstant b ∧
        ∀ t ∈ l, utcInstant e ≤ utcInstant t := by
  intro l
  induction l with
  | nil =>
    intro b e h
    cases h
    exact ⟨.inl rfl, le_refl _, by simp⟩
  | cons t rest ih =>
    intro b e h
    unfold pyMinFold at h
    cases hc : pyLtB t b with
    | error u => rw [hc] at h; cases h
    | ok c =>
      rw [hc] at h
      have hcv := pyLtB_ok hc
      cases c with
      | true =>
        have hlt : utcInstant t < utcInstant b := of_decide_eq_true hcv.symm
        obtain ⟨hm, hle, hall⟩ := ih t e h
        refine ⟨?_, le_trans hle (le_of_lt hlt), ?_⟩
        · rcases hm with rfl | hm
          · exact .inr (List.mem_cons_self _ _)
          · exact .inr (List.mem_cons_of_mem _ hm)
        · intro u hu
          rcases List.mem_cons.mp hu with rfl | hu
          · exact hle
          · exact hall u hu
      | false =>
        have hge : utcInstant b ≤ utcInstant t :=
          not_lt.mp (of_decide_eq_false hcv.symm)
        obtain ⟨hm, hle, hall⟩ := ih b e h
        refine ⟨?_, hle, ?_⟩
        · rcases hm with rfl | hm
          · exact .inl rfl
          · exact .inr (List.mem_cons_of_mem _ hm)
        · intro u hu
          rcases List.mem_cons.mp hu with rfl | hu
          · exact le_trans hle hge
          · exact hall u hu

/-- With an aware seed and aware elements the fold never raises. -/
theorem pyMinFold_aware_ok :
    ∀ (l : List PyDateTime) (b : PyDateTime), b.tz.isSome = true →
      (∀ t ∈ l, t.tz.isSome = true) → ∃ e, pyMinFold b l = .ok e := by
  intro l
  induction l with
  | nil => exact fun b _ _ => ⟨b, rfl⟩
  | cons t rest ih =>
    intro b hb hl
    obtain ⟨x, hx⟩ := Option.isSome_iff_exists.mp (hl t (List.mem_cons_self _ _))
    obtain ⟨y, hy⟩ := Option.isSome_iff_exists.mp hb
    have hok : pyLtB t b = .ok (decide (wallMicro t - x < wallMicro b - y)) := by
      simp [pyLtB, hx, hy]
    unfold pyMinFold
    rw [hok]
    cases hd : decide (wallMicro t - x < wallMicro b - y)
    · exact ih b hb (fun u hu => hl u (List.mem_cons_of_mem _ hu))
    · exact ih t (by simp [hx]) (fun u hu => hl u (List.mem_cons_of_mem _ hu))

/-! ### Parse-validity lemmas -/

theorem mkChecked_valid {y mo d h mi s us : Nat} {tz : Option Int} {t : PyDateTime}
    (hm : mkChecked y mo d h mi s us tz = some t) : validDT t := by
  unfold mkChecked at hm
  split at hm
  · cases hm; assumption
  · cases hm

theorem pyFromIsoformat_valid {s : String} {t : PyDateTime}
    (h : pyFromIsoformat s = some t) : validDT t := by
  unfold pyFromIsoformat at h
  repeat' split at h
  all_goals first
    | exact Option.noConfusion h
    | exact mkChecked_valid h

theorem parse_iso_valid {s : String} {t : PyDateTime}
    (h : parse_iso s = some t) : validDT t :=
  pyFromIsoformat_valid h

theorem recordStart_some {s : JVal} {k : String} {dt : PyDateTime}
    (h : recordStart s = some (k, dt)) :
    parse_iso k = some dt ∧ validDT dt := by
  unfold recordStart at h
  repeat' split at h
  all_goals cases h
  rename_i v hlook dt0 hparse
  exact ⟨hparse, parse_iso_valid hparse⟩

/-- Membership in the filtered list determines how the element was built. -/
theorem filteredSlots_mem {cfg : Config} {xs : List JVal}
    {p : JVal × String × PyDateTime} (h : p ∈ filteredSlots cfg xs) :
    recordStart p.1 = some (p.2.1, p.2.2) ∧
      passes_date_filters cfg (dtDate p.2.2) = true := by
  unfold filteredSlots at h
  obtain ⟨a, ha, hf⟩ := List.mem_filterMap.mp h
  unfold keepSlot at hf
  repeat' split at hf
  · rename_i k dt hr hp
    cases hf
    exact ⟨hr, hp⟩
  all_goals cases hf

theorem filteredSlots_valid {cfg : Config} {xs : List JVal}
    {p : JVal × String × PyDateTime} (h : p ∈ filteredSlots cfg xs) :
    validDT p.2.2 :=
  (recordStart_some (filteredSlots_mem h).1).2

/-! ### Calendar range bounds -/

theorem dbm_day_le {y m d : Nat} (hm1 : 1 ≤ m) (hm : m ≤ 12) (hd1 : 1 ≤ d)
    (hd : d ≤ daysInMonth y m) :
    daysBeforeMonth y m + d ≤ (if isLeap y then 366 else 365) := by
  interval_cases m <;> cases hL : isLeap y <;>
    simp [daysBeforeMonth, daysBeforeMonthTable, daysInMonth, hL] at hd ⊢ <;>
    omega

theorem daysBeforeYear_bound {y : Nat} (h1 : 1 ≤ y) (h9 : y ≤ 9999) :
    daysBeforeYear y + (if isLeap y then 366 else 365) ≤ 3652059 := by
  cases hL : isLeap y <;> simp [hL]
  · unfold daysBeforeYear
    omega
  · have h4 : y % 4 = 0 := by
      unfold isLeap at hL
      simp at hL
      exact hL.1
    unfold daysBeforeYear
    omega

theorem toOrdinal_bounds {t : PyDateTime} (h : validDT t) :
    1 ≤ toOrdinal t.year t.month t.day ∧
      toOrdinal t.year t.month t.day ≤ 3652059 := by
  obtain ⟨h1, h9, hm1, hm, hd1, hd, _⟩ := h
  constructor
  · unfold toOrdinal
    omega
  · have hA := dbm_day_le (y := t.year) hm1 hm hd1 hd
    have hB := daysBeforeYear_bound h1 h9
    unfold toOrdinal
    cases hL : isLeap t.year <;> simp [hL] at hA hB <;> omega

theorem wallMicro_range {t : PyDateTime} (h : validDT t) :
    86400000000 ≤ wallMicro t ∧ wallMicro t < 3652060 * 86400000000 := by
  obtain ⟨ho1, ho2⟩ := toOrdinal_bounds h
  obtain ⟨_, _, _, _, _, _, hh, hmi, hs, hus, _⟩ := h
  unfold wallMicro
  constructor <;> omega

theorem astimezoneUtc_some {t : PyDateTime} (hz : t.tz = some 0)
    (hv : validDT t) (loc : Int) : ∃ u, astimezoneUtc loc t = some u := by
  obtain ⟨hlo, hhi⟩ := wallMicro_range hv
  unfold astimezoneUtc civilOfMicro
  rw [hz]
  rw [if_neg (by simp; omega)]
  exact ⟨_, rfl⟩

/-! ### Message totality -/

theorem mem_insKey_sub {x y : JVal × String × PyDateTime} :
    ∀ {l}, y ∈ insKey x l → y = x ∨ y ∈ l := by
  intro l
  induction l with
  | nil =>
    intro h
    unfold insKey at h
    rcases List.mem_singleton.mp h with rfl
    exact .inl rfl
  | cons z rest ih =>
    intro h
    unfold insKey at h
    split at h
    · rcases List.mem_cons.mp h with rfl | h
      · exact .inr (List.mem_cons_self _ _)
      · rcases ih h with h | h
        · exact .inl h
        · exact .inr (List.mem_cons_of_mem _ h)
    · rcases List.mem_cons.mp h with rfl | h
      · exact .inl rfl
      · exact .inr h

theorem mem_sortByKey_sub {y : JVal × String × PyDateTime} :
    ∀ {l}, y ∈ sortByKey l → y ∈ l := by
  intro l
  induction l with
  | nil => intro h; cases h
  | cons z rest ih =>
    intro h
    unfold sortByKey at h
    rcases mem_insKey_sub h with rfl | h
    · exact List.mem_cons_self _ _
    · exact List.mem_cons_of_mem _ (ih h)

theorem optMapM_some {α β : Type} {f : α → Option β} :
    ∀ {l : List α}, (∀ x ∈ l, (f x).isSome = true) →
      ∃ ys, optMapM f l = some ys := by
  intro l
  induction l with
  | nil => exact fun _ => ⟨[], rfl⟩
  | cons x rest ih =>
    intro h
    obtain ⟨y, hy⟩ := Option.isSome_iff_exists.mp (h x (List.mem_cons_self _ _))
    obtain ⟨ys, hys⟩ := ih (fun u hu => h u (List.mem_cons_of_mem _ hu))
    exact ⟨y :: ys, by unfold optMapM; rw [hy, hys]⟩

theorem buildMessage_some {loc : Int} {f : List (JVal × String × PyDateTime)}
    (h : ∀ p ∈ f, (p.2.2).tz = some 0 ∧ validDT p.2.2) :
    ∃ msg, buildMessage loc f = some msg := by
  unfold buildMessage
  have hall : ∀ p ∈ (sortByKey f).take 5, (renderLine loc p).isSome = true := by
    intro p hp
    obtain ⟨hz, hv⟩ := h p (mem_sortByKey_sub (List.take_subset _ _ hp))
    obtain ⟨u, hu⟩ := astimezoneUtc_some hz hv loc
    simp [renderLine, hu]
  obtain ⟨ys, hys⟩ := optMapM_some hall
  rw [hys]
  exact ⟨_, rfl⟩

/-! ### Full analysis of a run that reaches change detection -/

theorem runMain_filtered_analysis
    (cfg : Config) (inp : RunInput) (kvs : List (String × JVal))
    (lsv : Option JVal) (xs : List JVal) (f0 : JVal × String × PyDateTime)
    (frest : List (JVal × String × PyDateTime))
    (hst : stateGet (load_state inp.stateRead) = .ok (kvs, lsv))
    (hf : inp.fetch = .ok (.arr xs))
    (hfs : filteredSlots cfg xs = f0 :: frest)
    (hz : ∀ p ∈ filteredSlots cfg xs, p.2.2.tz = some 0)
    (hls : ∀ l, lastSeenParse lsv = some l → l.tz.isSome = true) :
    ∃ e r, pyMinFold f0.2.2 (startsOf frest) = .ok e ∧
      runMain cfg inp = .ok r ∧ r.exitCode = 0 ∧
      (lastSeenParse lsv = none → r.notified = true) ∧
      (∀ l, lastSeenParse lsv = some l →
        (r.notified = true ↔ utcInstant e < utcInstant l)) ∧
      (r.notified = true →
        r.savedState = some (.obj (jSet kvs "last_seen_iso" (.str (stateStamp e))))) ∧
      (r.notified = false → r.savedState = none) := by
  have hxe : xs.isEmpty = false := by
    cases xs with
    | nil => rw [show filteredSlots cfg [] = [] from rfl] at hfs; cases hfs
    | cons a rest => rfl
  have hz0 : f0.2.2.tz = some 0 := hz f0 (hfs ▸ List.mem_cons_self f0 frest)
  have hzs : ∀ t ∈ startsOf frest, t.tz = some 0 := by
    intro t ht
    obtain ⟨p, hp, rfl⟩ := List.mem_map.mp ht
    exact hz p (hfs ▸ List.mem_cons_of_mem f0 hp)
  obtain ⟨e, hmin⟩ := pyMinFold_aware_ok (startsOf frest) f0.2.2
    (by simp [hz0]) (fun t ht => by simp [hzs t ht])
  have hminP := pyMinFold_ok_min _ _ _ hmin
  have he0 : e.tz = some 0 := by
    rcases hminP.1 with rfl | hm
    · exact hz0
    · exact hzs e hm
  obtain ⟨msg, hbm⟩ : ∃ msg, buildMessage inp.localOff (f0 :: frest) = some msg := by
    apply buildMessage_some
    rw [← hfs]
    intro p hp
    exact ⟨hz p hp, filteredSlots_valid hp⟩
  cases hlsv : lastSeenParse lsv with
  | none =>
    refine ⟨e, ⟨0, true,
      some (.obj (jSet kvs "last_seen_iso" (.str (stateStamp e)))),
      (notify cfg inp.world msg).stdout, (notify cfg inp.world msg).stderr⟩,
      hmin, ?_, rfl, fun _ => rfl, ?_, fun _ => rfl, ?_⟩
    · simp only [runMain, hst, hf, jTruthy, hxe, Bool.not_false, if_pos, pyIter,
        hfs, hmin, hlsv, decideAlert, hbm]
    · intro l hl
      cases hl
    · intro hfalse
      cases hfalse
  | some l =>
    obtain ⟨o, ho⟩ := Option.isSome_iff_exists.mp (hls l hlsv)
    have hda : decideAlert e (some l) =
        .ok (decide (utcInstant e < utcInstant l)) := by
      simp [decideAlert, pyLtB, he0, ho, utcInstant]
    cases hcmp : decide (utcInstant e < utcInstant l) with
    | true =>
      refine ⟨e, ⟨0, true,
        some (.obj (jSet kvs "last_seen_iso" (.str (stateStamp e)))),
        (notify cfg inp.world msg).stdout, (notify cfg inp.world msg).stderr⟩,
        hmin, ?_, rfl, fun h => rfl, ?_, fun _ => rfl, ?_⟩
      · rw [hcmp] at hda
        simp only [runMain, hst, hf, jTruthy, hxe, Bool.not_false, if_pos, pyIter,
          hfs, hmin, hlsv, hda, hbm]
      · intro l2 hl2
        cases hl2
        simp [of_decide_eq_true hcmp]
      · intro hfalse
        cases hfalse
    | false =>
      refine ⟨e, ⟨0, false, none,
        ["[info] earliest qualifying slot is not newer than last seen; no alert."], []⟩,
        hmin, ?_, rfl, ?_, ?_, ?_, fun _ => rfl⟩
      · rw [hcmp] at hda
        simp only [runMain, hst, hf, jTruthy, hxe, Bool.not_false, if_pos, pyIter,
          hfs, hmin, hlsv, hda, hbm]
      · intro habs
        cases habs
      · intro l2 hl2
        cases hl2
        simp [of_decide_eq_false hcmp]
      · intro habs
        cases habs

/-- C1 (amended): for a run reaching change detection with a non-empty
qualifying set whose timestamps all carry an explicit zero UTC offset, and
whose stored last-seen value, when it parses at all, is timezone-aware:
a notification is triggered iff no usable stored timestamp exists or the
minimum qualifying start instant is strictly earlier than the stored
instant.  (The un-amended claim fails when the minimum is naive and the
stored value aware: the comparison raises `TypeError`, see the
counterexample.) -/
theorem C1_change_detection
    (cfg : Config) (inp : RunInput) (kvs : List (String × JVal))
    (lsv : Option JVal) (xs : List JVal)
    (hst : stateGet (load_state inp.stateRead) = .ok (kvs, lsv))
    (hf : inp.fetch = .ok (.arr xs))
    (hne : (filteredSlots cfg xs).isEmpty = false)
    (hz : (filteredSlots cfg xs).all (fun p => p.2.2.tz == some 0) = true)
    (hls : (lastSeenParse lsv).all (fun t => t.tz.isSome) = true) :
    ∃ e r, runMain cfg inp = .ok r ∧
      e ∈ startsOf (filteredSlots cfg xs) ∧
      (∀ t ∈ startsOf (filteredSlots cfg xs), utcInstant e ≤ utcInstant t) ∧
      (lastSeenParse lsv = none → r.notified = true) ∧
      (∀ l, lastSeenParse lsv = some l →
        (r.notified = true ↔ utcInstant e < utcInstant l)) := by
  obtain ⟨f0, frest, hfs⟩ : ∃ f0 frest, filteredSlots cfg xs = f0 :: frest := by
    cases h : filteredSlots cfg xs with
    | nil => rw [h] at hne; cases hne
    | cons f0 frest => exact ⟨f0, frest, rfl⟩
  have hz' : ∀ p ∈ filteredSlots cfg xs, p.2.2.tz = some 0 := by
    intro p hp
    simpa using List.all_eq_true.mp hz p hp
  have hls' : ∀ l, lastSeenParse lsv = some l → l.tz.isSome = true := by
    intro l hl
    rw [hl] at hls
    simpa [Option.all] using hls
  obtain ⟨e, r, hmin, hrun, _, hnone, hsome, _, _⟩ :=
    runMain_filtered_analysis cfg inp kvs lsv xs f0 frest hst hf hfs hz' hls'
  have hminP := pyMinFold_ok_min _ _ _ hmin
  refine ⟨e, r, hrun, ?_, ?_, hnone, hsome⟩
  · rw [hfs]
    rcases hminP.1 with rfl | hm
    · exact List.mem_cons_self _ _
    · exact List.mem_cons_of_mem _ hm
  · rw [hfs]
    intro t ht
    rcases List.mem_cons.mp ht with rfl | ht
    · exact hminP.2.1
    · exact hminP.2.2 t ht

/-- C1 witness: an aware qualifying slot strictly earlier than the stored
aware timestamp triggers the notification. -/
theorem C1_change_detection_witness :
    ((filteredSlots cfgNone
        [.obj [("startTimestamp", .str "2026-02-05T09:00:00Z"), ("duration", .num 15)]]).isEmpty = false ∧
      (filteredSlots cfgNone
        [.obj [("startTimestamp", .str "2026-02-05T09:00:00Z"), ("duration", .num 15)]]).all
          (fun p => p.2.2.tz == some 0) = true ∧
      (lastSeenParse (some (.str "2026-02-10T15:00:00Z"))).all
        (fun t => t.tz.isSome) = true) ∧
    (∃ e r, runMain cfgNone
        ⟨.json (.obj [("last_seen_iso", .str "2026-02-10T15:00:00Z")]),
          .ok (.arr [.obj [("startTimestamp", .str "2026-02-05T09:00:00Z"),
            ("duration", .num 15)]]), worldOk, 0⟩ = .ok r ∧
      e ∈ startsOf (filteredSlots cfgNone
        [.obj [("startTimestamp", .str "2026-02-05T09:00:00Z"), ("duration", .num 15)]]) ∧
      (∀ t ∈ startsOf (filteredSlots cfgNone
        [.obj [("startTimestamp", .str "2026-02-05T09:00:00Z"), ("duration", .num 15)]]),
        utcInstant e ≤ utcInstant t) ∧
      (lastSeenParse (some (.str "2026-02-10T15:00:00Z")) = none → r.notified = true) ∧
      (∀ l, lastSeenParse (some (.str "2026-02-10T15:00:00Z")) = some l →
        (r.notified = true ↔ utcInstant e < utcInstant l))) :=
  ⟨⟨by decide, by decide, by decide⟩,
    C1_change_detection cfgNone
      ⟨.json (.obj [("last_seen_iso", .str "2026-02-10T15:00:00Z")]),
        .ok (.arr [.obj [("startTimestamp", .str "2026-02-05T09:00:00Z"),
          ("duration", .num 15)]]), worldOk, 0⟩
      [("last_seen_iso", .str "2026-02-10T15:00:00Z")]
      (some (.str "2026-02-10T15:00:00Z"))
      [.obj [("startTimestamp", .str "2026-02-05T09:00:00Z"), ("duration", .num 15)]]
      rfl rfl (by decide) (by decide) (by decide)⟩

/-- C2 (amended): once the decoded state is an object (absent/undecodable
files count as empty objects), the frame condition holds: a completed run
saves state iff it notified; a falsy payload, an empty date-filtered set,
and a no-change verdict each exit 0 without notifying and without touching
state; and a notifying run saves exactly the loaded dict with
`last_seen_iso` set to the minimum qualifying start rendered as a
wall-clock Z-string.  (The un-amended claim fails when the state file
decodes to a non-object, see the counterexample.) -/
theorem C2_state_frame (cfg : Config) (inp : RunInput)
    (kvs : List (String × JVal)) (lsv : Option JVal)
    (hst : stateGet (load_state inp.stateRead) = .ok (kvs, lsv)) :
    (∀ r, runMain cfg inp = .ok r → r.savedState.isSome = r.notified) ∧
    (∀ v, inp.fetch = .ok v → jTruthy v = false →
      runMain cfg inp = .ok ⟨0, false, none,
        ["[info] no qualifying slots found after date filters."], []⟩) ∧
    (∀ xs, inp.fetch = .ok (.arr xs) → filteredSlots cfg xs = [] →
      runMain cfg inp = .ok ⟨0, false, none,
        ["[info] no qualifying slots found after date filters."], []⟩) ∧
    (∀ xs f0 frest e, inp.fetch = .ok (.arr xs) →
      filteredSlots cfg xs = f0 :: frest →
      pyMinFold f0.2.2 (startsOf frest) = .ok e →
      decideAlert e (lastSeenParse lsv) = .ok false →
      runMain cfg inp = .ok ⟨0, false, none,
        ["[info] earliest qualifying slot is not newer than last seen; no alert."], []⟩) ∧
    (∀ r, runMain cfg inp = .ok r → r.notified = true →
      ∃ payload items f0 frest e msg,
        inp.fetch = .ok payload ∧
        pyIter (if jTruthy payload then payload else .arr []) = some items ∧
        filteredSlots cfg items = f0 :: frest ∧
        pyMinFold f0.2.2 (startsOf frest) = .ok e ∧
        (∀ t ∈ startsOf (f0 :: frest), utcInstant e ≤ utcInstant t) ∧
        buildMessage inp.localOff (f0 :: frest) = some msg ∧
        r.savedState = some (.obj (jSet kvs "last_seen_iso" (.str (stateStamp e))))) := by
  refine ⟨fun r hr => (runMain_ok_shape cfg inp r hr).1, ?_, ?_, ?_, ?_⟩
  · intro v hv ht
    simp [runMain, hst, hv, ht, pyIter, filteredSlots]
  · intro xs hf hfil
    cases xs with
    | nil => simp [runMain, hst, hf, jTruthy, pyIter, filteredSlots]
    | cons a rest => simp [runMain, hst, hf, jTruthy, pyIter, hfil]
  · intro xs f0 frest e hf hfs hmin hda
    have hxe : xs.isEmpty = false := by
      cases xs with
      | nil => rw [show filteredSlots cfg [] = [] from rfl] at hfs; cases hfs
      | cons a rest => rfl
    simp only [runMain, hst, hf, jTruthy, hxe, Bool.not_false, if_pos, pyIter,
      hfs, hmin, hda]
  · intro r hr hn
    obtain ⟨kvs2, lsv2, payload, items, f0, frest, e, msg, hst2, hf2, hit, hfs,
      hmin, hda, hbm, hre⟩ := runMain_notified_inversion cfg inp r hr hn
    rw [hst] at hst2
    cases hst2
    have hminP := pyMinFold_ok_min _ _ _ hmin
    refine ⟨payload, items, f0, frest, e, msg, hf2, hit, hfs, hmin, ?_, hbm, ?_⟩
    · intro t ht
      rcases List.mem_cons.mp ht with rfl | ht
      · exact hminP.2.1
      · exact hminP.2.2 t ht
    · rw [hre]

/-- C2 witness: an empty payload with an absent state file exits 0 leaving
state untouched, and a re-run with unchanged remote data (stored stamp
equal to the only slot) exits 0 without notifying or saving. -/
theorem C2_state_frame_witness :
    jTruthy (JVal.arr []) = false ∧
    runMain cfgNone ⟨.absent, .ok (.arr []), worldOk, 0⟩ =
      .ok ⟨0, false, none,
        ["[info] no qualifying slots found after date filters."], []⟩ ∧
    runMain cfgNone
      ⟨.json (.obj [("last_seen_iso", .str "2026-02-10T15:00:00Z")]),
        .ok (.arr [.obj [("startTimestamp", .str "2026-02-10T15:00:00Z")]]),
        worldOk, 0⟩ =
      .ok ⟨0, false, none,
        ["[info] earliest qualifying slot is not newer than last seen; no alert."], []⟩ :=
  ⟨by decide,
    (C2_state_frame cfgNone ⟨.absent, .ok (.arr []), worldOk, 0⟩ [] none rfl).2.1
      (.arr []) rfl (by decide),
    (C2_state_frame cfgNone
      ⟨.json (.obj [("last_seen_iso", .str "2026-02-10T15:00:00Z")]),
        .ok (.arr [.obj [("startTimestamp", .str "2026-02-10T15:00:00Z")]]),
        worldOk, 0⟩
      [("last_seen_iso", .str "2026-02-10T15:00:00Z")]
      (some (.str "2026-02-10T15:00:00Z")) rfl).2.2.2.1
      [.obj [("startTimestamp", .str "2026-02-10T15:00:00Z")]]
      (.obj [("startTimestamp", .str "2026-02-10T15:00:00Z")],
        "2026-02-10T15:00:00Z", ⟨2026, 2, 10, 15, 0, 0, 0, some 0⟩)
      [] ⟨2026, 2, 10, 15, 0, 0, 0, some 0⟩ rfl rfl rfl rfl⟩

/-- C5 (amended): the no-unhandled-fault guarantee holds only under these
preconditions, each matching a demonstrated escape: the integer
configuration parses (`startup` succeeds; else `ValueError` at import),
the decoded state is an object (else `AttributeError`), any truthy payload
is an array (a truthy number or boolean raises `TypeError` on iteration),
and every qualifying start timestamp carries an explicit ZERO UTC offset —
which rules out both the naive/aware `TypeError` in comparisons and the
`astimezone` range overflow during message rendering that a non-zero
offset can trigger at the `datetime` boundaries — while the stored
timestamp is aware whenever it parses.  Under them the process returns
exit status 0 or 1; see the counterexample for two of the escapes. -/
theorem C5_no_unhandled_fault (env : Env) (cfg : Config) (inp : RunInput)
    (kvs : List (String × JVal)) (lsv : Option JVal)
    (hsu : startup env = some cfg)
    (hst : stateGet (load_state inp.stateRead) = .ok (kvs, lsv))
    (hpay : ∀ v, inp.fetch = .ok v → jTruthy v = true → ∃ xs, v = .arr xs)
    (hz : ∀ xs, inp.fetch = .ok (.arr xs) →
      (filteredSlots cfg xs).all (fun p => p.2.2.tz == some 0) = true)
    (hls : (lastSeenParse lsv).all (fun t => t.tz.isSome) = true) :
    ∃ r, runProgram env inp = .ok r ∧ (r.exitCode = 0 ∨ r.exitCode = 1) := by
  have hrp : runProgram env inp = runMain cfg inp := by
    simp [runProgram, hsu]
  rw [hrp]
  have hls' : ∀ l, lastSeenParse lsv = some l → l.tz.isSome = true := by
    intro l hl
    rw [hl] at hls
    simpa [Option.all] using hls
  cases hfet : inp.fetch with
  | error e =>
    refine ⟨⟨1, false, none, [], ["[error] fetch failed: " ++ e]⟩, ?_, .inr rfl⟩
    simp [runMain, hst, hfet]
  | ok v =>
    cases htr : jTruthy v with
    | false =>
      refine ⟨⟨0, false, none,
        ["[info] no qualifying slots found after date filters."], []⟩, ?_, .inl rfl⟩
      simp [runMain, hst, hfet, htr, pyIter, filteredSlots]
    | true =>
      obtain ⟨xs, rfl⟩ := hpay v hfet htr
      cases hfil : filteredSlots cfg xs with
      | nil =>
        refine ⟨⟨0, false, none,
          ["[info] no qualifying slots found after date filters."], []⟩, ?_, .inl rfl⟩
        simp [runMain, hst, hfet, htr, pyIter, hfil]
      | cons f0 frest =>
        have hz' : ∀ p ∈ filteredSlots cfg xs, p.2.2.tz = some 0 := by
          intro p hp
          simpa using List.all_eq_true.mp (hz xs hfet) p hp
        obtain ⟨e, r, hmin, hrun, hexit, _⟩ :=
          runMain_filtered_analysis cfg inp kvs lsv xs f0 frest hst hfet hfil hz' hls'
        exact ⟨r, hrun, .inl hexit⟩

/-- C5 witness: a fully well-formed environment, object state and aware
earlier slot complete with exit status 0. -/
theorem C5_no_unhandled_fault_witness :
    startup ⟨none, none, none, none, none, none, none, none, none, none,
      none, none, none, none, none, none, none⟩ = some cfgNone ∧
    (∃ r, runProgram ⟨none, none, none, none, none, none, none, none, none,
        none, none, none, none, none, none, none, none⟩
      ⟨.json (.obj [("last_seen_iso", .str "2026-02-10T15:00:00Z")]),
        .ok (.arr [.obj [("startTimestamp", .str "2026-02-05T09:00:00Z")]]),
        worldOk, 0⟩ = .ok r ∧ (r.exitCode = 0 ∨ r.exitCode = 1)) :=
  ⟨rfl,
    C5_no_unhandled_fault _ cfgNone
      ⟨.json (.obj [("last_seen_iso", .str "2026-02-10T15:00:00Z")]),
        .ok (.arr [.obj [("startTimestamp", .str "2026-02-05T09:00:00Z")]]),
        worldOk, 0⟩
      [("last_seen_iso", .str "2026-02-10T15:00:00Z")]
      (some (.str "2026-02-10T15:00:00Z"))
      rfl rfl
      (by intro v hv ht; cases hv; exact ⟨_, rfl⟩)
      (by intro xs hxs; cases hxs; decide)
      (by decide)⟩

/-- C6 (amended): the `Z` suffix is rewritten to `+00:00` before parsing
(so a trailing `Z` yields an explicit zero offset); a timestamp's offset is
ignored — i.e. naive means wall-clock-as-stored — in date filtering and in
state persistence; but comparing a naive with an aware timestamp raises
`TypeError` instead of treating the naive one as UTC, and message
formatting interprets a naive timestamp as system-local time, not UTC. -/
theorem C6_timestamp_handling :
    (∀ s, parse_iso s = pyFromIsoformat (replaceZ s)) ∧
    parse_iso "2026-02-10T15:00:00Z" = some ⟨2026, 2, 10, 15, 0, 0, 0, some 0⟩ ∧
    (∀ t o, stateStamp (setTz t o) = stateStamp t) ∧
    (∀ cfg t o, passes_date_filters cfg (dtDate (setTz t o)) =
      passes_date_filters cfg (dtDate t)) ∧
    (∀ a b, a.tz = none → b.tz.isSome = true → pyLtB a b = .error ()) ∧
    (∀ t loc, t.tz = none →
      astimezoneUtc loc t = civilOfMicro (wallMicro t - loc)) ∧
    astimezoneUtc 3600000000 ⟨2026, 2, 5, 9, 0, 0, 0, none⟩ =
      some ⟨2026, 2, 5, 8, 0, 0, 0, some 0⟩ := by
  refine ⟨fun s => rfl, by decide, fun t o => rfl, fun cfg t o => rfl,
    ?_, ?_, by decide⟩
  · intro a b ha hb
    cases hbo : b.tz with
    | none => rw [hbo] at hb; cases hb
    | some o => simp [pyLtB, ha, hbo]
  · intro t loc ht
    simp [astimezoneUtc, ht]

/-- C6 witness: a naive/aware comparison raises, and a naive timestamp is
formatted through the system-local offset. -/
theorem C6_timestamp_handling_witness :
    pyLtB ⟨2026, 1, 1, 0, 0, 0, 0, none⟩ ⟨2026, 1, 1, 0, 0, 0, 0, some 0⟩ =
      .error () ∧
    astimezoneUtc 7200000000 ⟨2026, 1, 1, 12, 0, 0, 0, none⟩ =
      civilOfMicro (wallMicro ⟨2026, 1, 1, 12, 0, 0, 0, none⟩ - 7200000000) :=
  ⟨C6_timestamp_handling.2.2.2.2.1 _ _ rfl rfl,
    C6_timestamp_handling.2.2.2.2.2.1 _ 7200000000 rfl⟩

/-- C7 (amended): the start timestamp is extracted solely from the
`startTimestamp` key — no other key is consulted — and any record lacking
it (or not a dict, or with an unparseable value) is dropped silently: the
run completes with exit 0 rather than aborting. -/
theorem C7_start_key :
    (∀ kvs, jLookup kvs "startTimestamp" = none → recordStart (.obj kvs) = none) ∧
    (∀ kvs s, jLookup kvs "startTimestamp" = some (.str s) →
      recordStart (.obj kvs) =
        (match parse_iso s with
          | some dt => some (s, dt)
          | none => none)) ∧
    (∀ s, recordStart (.str s) = none) ∧
    (∀ n, recordStart (.num n) = none) ∧
    (∀ cfg inp kvs lsv xs,
      stateGet (load_state inp.stateRead) = .ok (kvs, lsv) →
      inp.fetch = .ok (.arr xs) → (∀ x ∈ xs, recordStart x = none) →
      runMain cfg inp = .ok ⟨0, false, none,
        ["[info] no qualifying slots found after date filters."], []⟩) := by
  refine ⟨?_, ?_, fun s => rfl, fun n => rfl, ?_⟩
  · intro kvs h
    simp [recordStart, h]
  · intro kvs s h
    simp [recordStart, h]
  · intro cfg inp kvs lsv xs hst hf hall
    have hfil : filteredSlots cfg xs = [] := by
      apply List.filterMap_eq_nil_iff.mpr
      intro a ha
      simp [keepSlot, hall a ha]
    cases xs with
    | nil => simp [runMain, hst, hf, jTruthy, pyIter, filteredSlots]
    | cons a rest =>
      simp [runMain, hst, hf, jTruthy, pyIter, hfil]

/-- C7 witness: records under the keys `start`/`startTime` only are all
dropped and the run exits cleanly. -/
theorem C7_start_key_witness :
    recordStart (.obj [("start", .str "2026-02-10T15:00:00Z")]) = none ∧
    runMain cfgNone ⟨.absent,
      .ok (.arr [.obj [("start", .str "2026-02-10T15:00:00Z")],
        .obj [("startTime", .str "2026-02-11T15:00:00Z")]]), worldOk, 0⟩ =
      .ok ⟨0, false, none,
        ["[info] no qualifying slots found after date filters."], []⟩ :=
  ⟨C7_start_key.1 [("start", .str "2026-02-10T15:00:00Z")] rfl,
    C7_start_key.2.2.2.2 cfgNone _ [] none _ rfl rfl (by decide)⟩

/-- C8 (amended): the fetched JSON body is not checked for being an array:
a falsy value (empty list, empty dict, empty string, zero, false, null) is
replaced by an empty list via `or []` and the run exits 0; a truthy number
(or `true`) crashes iteration with `TypeError`; a truthy dict is passed
onward and iterated over its keys exactly as if the key list had been
fetched; a truthy string is iterated over its characters, each of which
fails record parsing, so the run completes with exit 0 and no
notification. -/
theorem C8_fetch_nonarray :
    (∀ cfg st w loc kvs lsv n,
      stateGet (load_state st) = .ok (kvs, lsv) → n ≠ 0 →
      runMain cfg ⟨st, .ok (.num n), w, loc⟩ = .error .slotsNotIterable) ∧
    (∀ cfg st w loc kvs lsv,
      stateGet (load_state st) = .ok (kvs, lsv) →
      runMain cfg ⟨st, .ok (.bool true), w, loc⟩ = .error .slotsNotIterable) ∧
    (∀ cfg st w loc kvs lsv v,
      stateGet (load_state st) = .ok (kvs, lsv) → jTruthy v = false →
      runMain cfg ⟨st, .ok v, w, loc⟩ = .ok ⟨0, false, none,
        ["[info] no qualifying slots found after date filters."], []⟩) ∧
    (∀ cfg st w loc okvs, okvs ≠ [] →
      runMain cfg ⟨st, .ok (.obj okvs), w, loc⟩ =
        runMain cfg ⟨st, .ok (.arr (okvs.map (fun kv => JVal.str kv.1))), w, loc⟩) ∧
    (∀ cfg st w loc s, s ≠ "" →
      runMain cfg ⟨st, .ok (.str s), w, loc⟩ =
        runMain cfg ⟨st, .ok (.arr (s.toList.map (fun c => JVal.str ⟨[c]⟩))), w, loc⟩) ∧
    (∀ cfg st w loc kvs lsv s,
      stateGet (load_state st) = .ok (kvs, lsv) →
      runMain cfg ⟨st, .ok (.str s), w, loc⟩ = .ok ⟨0, false, none,
        ["[info] no qualifying slots found after date filters."], []⟩) := by
  refine ⟨?_, ?_, ?_, ?_, ?_, ?_⟩
  · intro cfg st w loc kvs lsv n hst hn
    have ht : jTruthy (JVal.num n) = true := by simp [jTruthy, hn]
    simp [runMain, hst, ht, pyIter]
  · intro cfg st w loc kvs lsv hst
    simp [runMain, hst, jTruthy, pyIter]
  · intro cfg st w loc kvs lsv v hst ht
    simp [runMain, hst, ht, pyIter, filteredSlots]
  · intro cfg st w loc okvs hne
    cases hsg : stateGet (load_state st) with
    | error u => simp [runMain, hsg]
    | ok pr =>
      obtain ⟨kvs2, lsv2⟩ := pr
      have h1 : jTruthy (JVal.obj okvs) = true := by simp [jTruthy, hne]
      have h2 : jTruthy (JVal.arr (okvs.map (fun kv => JVal.str kv.1))) = true := by
        simp [jTruthy, hne]
      simp [runMain, hsg, h1, h2, pyIter]
  · intro cfg st w loc s hs
    have hnl : s.data ≠ [] := by
      intro h
      apply hs
      cases s with
      | mk data =>
        have h2 : data = [] := h
        rw [h2]
    cases hsg : stateGet (load_state st) with
    | error u => simp [runMain, hsg]
    | ok pr =>
      obtain ⟨kvs2, lsv2⟩ := pr
      have h1 : jTruthy (JVal.str s) = true := by simp [jTruthy, hs]
      have h2 : jTruthy (JVal.arr (s.data.map (fun c => JVal.str ⟨[c]⟩))) = true := by
        simp [jTruthy, hnl]
      simp [runMain, hsg, h1, h2, pyIter, String.toList]
  · intro cfg st w loc kvs lsv s hst
    have hfil : filteredSlots cfg (s.data.map (fun c => JVal.str ⟨[c]⟩)) = [] := by
      apply List.filterMap_eq_nil_iff.mpr
      intro a ha
      obtain ⟨c, hc, rfl⟩ := List.mem_map.mp ha
      simp [keepSlot, recordStart]
    cases hts : jTruthy (JVal.str s) with
    | false => simp [runMain, hst, hts, pyIter, filteredSlots]
    | true => simp [runMain, hst, hts, pyIter, hfil]

/-- C8 witness: a falsy dict payload exits 0; a truthy number crashes; a
truthy dict is iterated over its keys; a truthy string completes with exit
0 after its characters fail record parsing. -/
theorem C8_fetch_nonarray_witness :
    runMain cfgNone ⟨.absent, .ok (.obj []), worldOk, 0⟩ =
      .ok ⟨0, false, none,
        ["[info] no qualifying slots found after date filters."], []⟩ ∧
    runMain cfgNone ⟨.absent, .ok (.num 7), worldOk, 0⟩ =
      .error .slotsNotIterable ∧
    runMain cfgNone ⟨.absent, .ok (.obj [("a", .num 1)]), worldOk, 0⟩ =
      runMain cfgNone ⟨.absent, .ok (.arr [.str "a"]), worldOk, 0⟩ ∧
    runMain cfgNone ⟨.absent, .ok (.str "ab"), worldOk, 0⟩ =
      runMain cfgNone ⟨.absent, .ok (.arr [.str "a", .str "b"]), worldOk, 0⟩ ∧
    runMain cfgNone ⟨.absent, .ok (.str "ab"), worldOk, 0⟩ =
      .ok ⟨0, false, none,
        ["[info] no qualifying slots found after date filters."], []⟩ :=
  ⟨C8_fetch_nonarray.2.2.1 cfgNone .absent worldOk 0 [] none (.obj []) rfl (by decide),
    C8_fetch_nonarray.1 cfgNone .absent worldOk 0 [] none 7 rfl (by decide),
    C8_fetch_nonarray.2.2.2.1 cfgNone .absent worldOk 0 [("a", .num 1)] (by simp),
    C8_fetch_nonarray.2.2.2.2.1 cfgNone .absent worldOk 0 "ab" (by decide),
    C8_fetch_nonarray.2.2.2.2.2 cfgNone .absent worldOk 0 [] none "ab" rfl⟩

end NexusWatcher
